import Mathlib

/-!
Verification of the curve-construction engine of `src/streamlit_app.py`
(functions `clean_bond_df` / `map_tenor` and the chart-branch guard).

Modelling conventions (shallow embedding):
* Python/NumPy floating point numbers are modelled by exact rationals `ℚ`;
  the IEEE special values that the pipeline can actually produce
  (`inf`, `-inf`, `nan` coming out of `pd.to_numeric(..., errors='coerce')`)
  are modelled by the sum type `YVal`.
* Rational values are assembled with `mkRat` over integer arithmetic so
  that every definition evaluates inside the kernel; lemmas such as
  `ratScale_eq` relate these encodings to the ordinary field operations
  used in the theorem statements.
* Strings are worked on as `List Char` (Python `str` is a character
  sequence); ASCII case mapping models Python `upper`/`lower` on the
  ASCII labels this pipeline receives.
* `pd.to_numeric(errors='coerce')` on a string is modelled by `toNumeric`:
  standard decimal parsing (optional sign, decimal point, exponent), the
  infinity keywords `inf`/`infinity` (optionally signed, case-insensitive,
  as accepted by pandas' `floatify` string parser), and `nan` on anything
  else (coercion instead of an exception).
* `np.exp` never maps a non-NaN argument to NaN (`exp(-inf) = 0`,
  `exp(inf) = inf`), so for the `dropna()` test the NaN-ness of the
  `Discount_Rate` column equals the NaN-ness of its argument
  `-(Yield_Num/100)*Years`, which `dfArg` computes on `YVal`.
* `DataFrame.sort_values("Years")` uses pandas' default `kind='quicksort'`,
  which fixes only the ordering by the `Years` key and is documented as not
  stable, so the relative order of equal-`Years` rows is not a guarantee of
  the program.  The embedding must still pick a concrete executable sort
  and uses insertion sort; no theorem below depends on the order of ties.
-/

/-- Python float classification for the values flowing through the
`Yield_Num` column: a finite value (modelled exactly as a rational),
the two infinities, or NaN (the `errors='coerce'` sentinel). -/
inductive YVal where
  | fin : ℚ → YVal
  | pinf : YVal
  | ninf : YVal
  | nan : YVal
deriving DecidableEq, Repr

/-- A value is finite when it is neither an infinity nor NaN. -/
def YVal.isFinite : YVal → Bool
  | .fin _ => true
  | _ => false

/-- Python `c.isdigit()` restricted to ASCII decimal digits, the digits the
scraped tenor labels contain. -/
def isDigitChar (c : Char) : Bool :=
  '0' ≤ c && c ≤ '9'

/-- Whitespace characters stripped by Python `str.strip()`. -/
def isSpaceChar (c : Char) : Bool :=
  c == ' ' || c == '\t' || c == '\n' || c == '\r'

/-- Python `str.strip()`: drop whitespace from both ends. -/
def pyStrip (cs : List Char) : List Char :=
  ((cs.dropWhile isSpaceChar).reverse.dropWhile isSpaceChar).reverse

/-- Python `str.upper()` on ASCII characters. -/
def pyUpper (cs : List Char) : List Char :=
  cs.map Char.toUpper

/-- Python `str.lower()` on ASCII characters. -/
def pyLower (cs : List Char) : List Char :=
  cs.map Char.toLower

/-- Python substring containment `needle in hay`. -/
def substrIn (needle : List Char) : List Char → Bool
  | [] => needle.isEmpty
  | c :: t => needle.isPrefixOf (c :: t) || substrIn needle t

/-- Python `needle in hay` on strings. -/
def pyIn (needle hay : String) : Bool :=
  substrIn needle.toList hay.toList

/-- Value of a string of decimal digits (`float(val_str)` on an all-digit
string, represented exactly). -/
def digitsToNat (cs : List Char) : ℕ :=
  cs.foldl (fun a c => 10 * a + (c.toNat - 48)) 0

/-- Model of `map_tenor` (src/streamlit_app.py lines 65–72): uppercase and
strip the label, concatenate all digit characters into one magnitude, return
`0.0` when there are none, and divide by 12 when the label contains `MONTH`
or ends with `M` while containing no `Y`.  The two float divisions are exact
here and written with `mkRat` (`mkRat v 12 = v / 12`) so that the kernel can
evaluate them. -/
def map_tenor (s : String) : ℚ :=
  let t := pyStrip (pyUpper s.toList)
  let valStr := t.filter isDigitChar
  if valStr.isEmpty then 0
  else if substrIn "MONTH".toList t || (['M'].isSuffixOf t && !substrIn ['Y'] t) then
    mkRat (Int.ofNat (digitsToNat valStr)) 12
  else
    mkRat (Int.ofNat (digitsToNat valStr)) 1

/-- The tenor parser as the spec words it: uppercase and trim, take the
digit characters as an integer magnitude `val` (`0.0` when there are none),
return `val / 12` for a month label and `val` unchanged otherwise. -/
def parse_tenor_spec (s : String) : ℚ :=
  let t := pyStrip (pyUpper s.toList)
  let digits := t.filter isDigitChar
  if digits.isEmpty then 0
  else
    let val : ℚ := (digitsToNat digits : ℚ)
    if substrIn "MONTH".toList t || (['M'].isSuffixOf t && !substrIn ['Y'] t) then
      val / 12
    else val

/-- Standard decimal parsing as performed by pandas' string-to-double
conversion (`precise_xstrtod`): optional sign, integer digits, optional
decimal point with fraction digits (at least one digit overall), optional
`e`/`E` exponent with optional sign and at least one digit, and nothing
else.  Returns `none` exactly when the whole string does not match.  The
value is assembled with integer arithmetic and one `mkRat`. -/
def parseDecimalChars (cs : List Char) : Option ℚ :=
  let (neg, cs) :=
    match cs with
    | '-' :: rest => (true, rest)
    | '+' :: rest => (false, rest)
    | _ => (false, cs)
  let ip := cs.takeWhile isDigitChar
  let cs := cs.dropWhile isDigitChar
  let (fp, cs) :=
    match cs with
    | '.' :: rest => (rest.takeWhile isDigitChar, rest.dropWhile isDigitChar)
    | _ => ([], cs)
  if ip.isEmpty && fp.isEmpty then none
  else
    let mantNumAbs : ℤ := Int.ofNat (digitsToNat ip * 10 ^ fp.length + digitsToNat fp)
    let mantNum : ℤ := if neg then -mantNumAbs else mantNumAbs
    let mantDen : ℕ := 10 ^ fp.length
    match cs with
    | [] => some (mkRat mantNum mantDen)
    | e :: rest =>
      if e == 'e' || e == 'E' then
        let (eneg, rest) :=
          match rest with
          | '-' :: r => (true, r)
          | '+' :: r => (false, r)
          | _ => (false, rest)
        let ed := rest.takeWhile isDigitChar
        let rest := rest.dropWhile isDigitChar
        if ed.isEmpty || !rest.isEmpty then none
        else if eneg then some (mkRat mantNum (mantDen * 10 ^ digitsToNat ed))
        else some (mkRat (mantNum * Int.ofNat (10 ^ digitsToNat ed)) mantDen)
      else none

/-- `parseDecimalChars` on a `String`. -/
def parseDecimal? (s : String) : Option ℚ :=
  parseDecimalChars s.toList

/-- The positive-infinity spellings accepted by pandas' `floatify`
(case-insensitive, optional explicit sign). -/
def isPosInfStr (s : String) : Bool :=
  let l := pyLower s.toList
  l == "inf".toList || l == "+inf".toList || l == "infinity".toList || l == "+infinity".toList

/-- The negative-infinity spellings accepted by pandas' `floatify`. -/
def isNegInfStr (s : String) : Bool :=
  let l := pyLower s.toList
  l == "-inf".toList || l == "-infinity".toList

/-- Model of `pd.to_numeric(x, errors='coerce')` on a single string cell
(src/streamlit_app.py line 62): decimal parsing, the infinity keywords, and
NaN coercion on every other string. -/
def toNumeric (s : String) : YVal :=
  match parseDecimal? s with
  | some q => .fin q
  | none =>
    if isPosInfStr s then .pinf
    else if isNegInfStr s then .ninf
    else .nan

/-- Model of line 61: `str.replace('%','').str.replace('+','').str.strip()`. -/
def stripYield (s : String) : String :=
  ⟨pyStrip ((s.toList.filter fun c => !(c == '%')).filter fun c => !(c == '+'))⟩

/-- The yield normalizer: the composition of lines 61–62 applied to one
yield cell. -/
def parse_yield (s : String) : YVal :=
  toNumeric (stripYield s)

/-- Python `.astype(int)` on a finite float: truncation toward zero. -/
def astypeInt (q : ℚ) : ℤ :=
  if q < 0 then ⌈q⌉ else ⌊q⌋

/-- Multiplication of a rational by a natural constant, written on the
numerator so that the kernel can evaluate it; `ratScale_eq` shows it is the
ordinary product. -/
def ratScale (q : ℚ) (k : ℕ) : ℚ :=
  mkRat (q.num * k) q.den

/-- Float classification of `-(y/100) * t` for a finite `t`
(the argument of `np.exp` on line 79).  `inf * 0` is NaN. -/
def dfArg (y : YVal) (t : ℚ) : YVal :=
  match y with
  | .fin q => .fin (-(q / 100) * t)
  | .pinf => if 0 < t then .ninf else if t < 0 then .pinf else .nan
  | .ninf => if 0 < t then .pinf else if t < 0 then .ninf else .nan
  | .nan => .nan

/-- One row of the cleaned frame built by `clean_bond_df` before
`dropna()`/`sort_values`: the two retained text columns and the derived
numeric columns (`Yield_Num`, `Years`, `Days`).  `Discount_Rate` is a
function of these fields (it involves `exp`), see `discountFactor` and
`dfArg`. -/
structure CleanRow where
  tenor : String
  yieldStr : String
  yieldNum : YVal
  years : ℚ
  days : ℤ
deriving DecidableEq, Repr

/-- Model of line 79 for a finite yield: the real discount factor
`exp(-(rate/100) * years)`. -/
noncomputable def discountFactor (ratePct years : ℚ) : ℝ :=
  Real.exp (-((ratePct : ℝ) / 100) * (years : ℝ))

/-- Build one row of the cleaned frame from the raw tenor and yield cells
(lines 61–79 applied pointwise). -/
def processRow (tenor yld : String) : CleanRow :=
  { tenor := tenor
    yieldStr := yld
    yieldNum := parse_yield yld
    years := map_tenor tenor
    days := astypeInt (ratScale (map_tenor tenor) 360) }

/-- The `dropna()` test of line 81: a row survives iff none of its cells is
NaN; with string inputs only `Yield_Num` and `Discount_Rate` can be NaN. -/
def keepRow (r : CleanRow) : Bool :=
  !(decide (r.yieldNum = .nan) || decide (dfArg r.yieldNum r.years = .nan))

/-- The sort key relation of `sort_values("Years")`. -/
def yearsLE (a b : CleanRow) : Prop :=
  a.years ≤ b.years

instance : DecidableRel yearsLE := fun a b => inferInstanceAs (Decidable (a.years ≤ b.years))

instance : IsTotal CleanRow yearsLE := ⟨fun a b => le_total a.years b.years⟩

instance : IsTrans CleanRow yearsLE := ⟨fun _ _ _ h h' => le_trans h h'⟩

/-- The rows of the cleaned frame before `dropna()`/`sort_values`: lines
61–79 applied to every (tenor, yield) input pair, in input order. -/
def processedRows (rows : List (String × String)) : List CleanRow :=
  rows.map fun p => processRow p.1 p.2

/-- The curve builder (lines 53–81 restricted to the row pipeline): process
every row, drop NaN rows, sort ascending by `Years`.  The source's
`sort_values("Years")` (default `kind='quicksort'`) promises only the
ordering by the key, not the order of equal-`Years` ties; insertion sort is
one concrete realization of it, and no theorem below relies on how it
orders ties. -/
def build_curve (rows : List (String × String)) : List CleanRow :=
  List.insertionSort yearsLE ((processedRows rows).filter keepRow)

/-- A raw scraped table: column names and rows of text cells. -/
structure RawDF where
  cols : List String
  rows : List (List String)
deriving DecidableEq, Repr

/-- The Python exception raised by `[...][0]` on an empty list. -/
inductive PyError where
  | indexError
deriving DecidableEq, Repr

/-- Cell of a row under a named column: the position of the first column
with that name (pandas label-based selection). -/
def cellAt (cols : List String) (col : String) (row : List String) : String :=
  match cols.findIdx? (· == col) with
  | some i => row.getD i "nan"
  | none => "nan"

/-- Model of `clean_bond_df` (lines 53–81): pick the first column whose name
contains `'Yield'` and the first whose name contains `'Maturity'` (an
`IndexError` escapes when either filter comes back empty, line 54 before
line 55), then run the row pipeline on the two selected columns. -/
def clean_bond_df (df : RawDF) : Except PyError (List CleanRow) :=
  match (df.cols.filter fun c => pyIn "Yield" c).head? with
  | none => .error .indexError
  | some yCol =>
    match (df.cols.filter fun c => pyIn "Maturity" c).head? with
    | none => .error .indexError
    | some mCol =>
      .ok (build_curve (df.rows.map fun row => (cellAt df.cols mCol row, cellAt df.cols yCol row)))

/-- The chart branch of lines 116–130: the cubic spline is attempted iff the
cleaned frame has at least 3 rows, otherwise the raw points are drawn as a
plain line chart. -/
inductive ChartBranch where
  | spline
  | fallback
deriving DecidableEq, Repr

/-- Model of the guard `if len(df) >= 3` on line 116. -/
def chartBranch (c : List CleanRow) : ChartBranch :=
  if 3 ≤ c.length then .spline else .fallback

/-- Number of distinct `Years` values in a curve (the quantity the spec's
`InsufficientPoints` condition speaks about). -/
def distinctYearsCount (c : List CleanRow) : ℕ :=
  ((c.map fun r => r.years).dedup).length

theorem ratScale_eq (q : ℚ) (k : ℕ) : ratScale q k = q * (k : ℚ) := by
  rw [ratScale, Rat.mkRat_eq_div]
  push_cast
  rw [mul_comm (q.num : ℚ) (k : ℚ), mul_div_assoc, Rat.num_div_den, mul_comm]

theorem map_tenor_nonneg (s : String) : 0 ≤ map_tenor s := by
  rw [map_tenor]
  split
  · exact le_refl 0
  split <;>
  · rw [Rat.mkRat_eq_div]
    refine div_nonneg ?_ (by norm_num)
    exact Int.cast_nonneg.mpr (Int.ofNat_nonneg _)

theorem astypeInt_of_nonneg (q : ℚ) (h : 0 ≤ q) : astypeInt q = ⌊q⌋ := by
  rw [astypeInt, if_neg (not_lt.mpr h)]

theorem map_tenor_eq_spec (s : String) : map_tenor s = parse_tenor_spec s := by
  rw [map_tenor, parse_tenor_spec]
  split
  · rfl
  split
  · rw [Rat.mkRat_eq_div]; push_cast; norm_num
  · rw [Rat.mkRat_eq_div]; push_cast; norm_num

theorem head?_filter_eq_find? (p : String → Bool) (l : List String) :
    (l.filter p).head? = l.find? p := by
  induction l with
  | nil => rfl
  | cons a l ih => by_cases h : p a <;> simp [List.filter_cons, List.find?, h, ih]

example : map_tenor "3M" = mkRat 1 4 := by decide
example : map_tenor "6 MONTH" = mkRat 1 2 := by decide
example : map_tenor "10Y" = 10 := by decide
example : map_tenor "2 Year" = 2 := by decide
example : map_tenor "N/A" = 0 := by decide
example : map_tenor "5Y6M" = 56 := by decide
example : parse_yield " +2.5% " = .fin (mkRat 5 2) := by decide
example : parse_yield "-0.11%" = .fin (mkRat (-11) 100) := by decide
example : parse_yield "1e2" = .fin 100 := by decide
example : parse_yield "abc" = .nan := by decide
example : parse_yield "" = .nan := by decide
example : parse_yield "inf" = .pinf := by decide
example : build_curve [("5Y", "inf")] = [⟨"5Y", "inf", .pinf, 5, 1800⟩] := by decide

/-- C2 (counterexample): a 3-row curve with only 2 distinct `years` values
is sent to the cubic-spline branch, not to the fallback the claim requires
for fewer than 3 distinct years. -/
theorem chart_branch_distinct_counterexample :
    distinctYearsCount (build_curve [("1Y", "1.0"), ("12M", "2.0"), ("2Y", "3.0")]) = 2 ∧
      chartBranch (build_curve [("1Y", "1.0"), ("12M", "2.0"), ("2Y", "3.0")]) = .spline := by
  decide

/-- C2 (amended): the fallback chart is used exactly when the built curve
has fewer than 3 rows — the guard counts rows, not distinct years. -/
theorem chart_branch_iff_row_count (rows : List (String × String)) :
    chartBranch (build_curve rows) = .fallback ↔ (build_curve rows).length < 3 := by
  rw [chartBranch]
  split
  · rename_i h
    exact iff_of_false (fun hx => ChartBranch.noConfusion hx) (not_lt.mpr h)
  · rename_i h
    exact iff_of_true rfl (lt_of_not_le h)

/-- C3 (counterexample): `map_tenor "5Y6M"` is `56` (classified as years
because the label contains `Y`), not the `56 / 12` that classification by
the last suffix `M` would give. -/
theorem map_tenor_compound_counterexample :
    map_tenor "5Y6M" = 56 ∧ map_tenor "5Y6M" ≠ 56 / 12 := by
  have h : map_tenor "5Y6M" = 56 := by decide
  refine ⟨h, ?_⟩
  rw [h]
  norm_num

/-- C3 (amended): for the compound label "5Y6M" the digits are concatenated
into "56" before the unit check, and the single whole-label unit check
classifies it as years (the presence of `Y` anywhere overrides the trailing
`M`), giving 56.0. -/
theorem map_tenor_compound_years :
    (pyStrip (pyUpper "5Y6M".toList)).filter isDigitChar = ['5', '6'] ∧
      map_tenor "5Y6M" = 56 := by
  decide

/-- C4: `map_tenor` uppercases and trims, extracts the digit characters as
an integer magnitude (0.0 when there are none), divides by 12 exactly for
month labels, and satisfies the five quoted examples. -/
theorem map_tenor_matches_spec :
    (∀ s, map_tenor s = parse_tenor_spec s) ∧
      map_tenor "3M" = 1 / 4 ∧ map_tenor "6 MONTH" = 1 / 2 ∧ map_tenor "10Y" = 10 ∧
      map_tenor "2 Year" = 2 ∧ map_tenor "N/A" = 0 := by
  refine ⟨map_tenor_eq_spec, ?_, ?_, by decide, by decide, by decide⟩
  · rw [show (1 / 4 : ℚ) = mkRat 1 4 by rw [Rat.mkRat_eq_div]; norm_num]
    decide
  · rw [show (1 / 2 : ℚ) = mkRat 1 2 by rw [Rat.mkRat_eq_div]; norm_num]
    decide

/-- C6: unparseable-yield rows are dropped, never defaulted: the output is
never longer than the input, every surviving row has a non-NaN rate, and
the stored rate of a surviving row is exactly the parse of its own yield
label. -/
theorem build_curve_drops_unparseable (rows : List (String × String)) :
    (build_curve rows).length ≤ rows.length ∧
      ∀ r ∈ build_curve rows, r.yieldNum ≠ .nan ∧ r.yieldNum = parse_yield r.yieldStr := by
  constructor
  · rw [build_curve, List.length_insertionSort]
    exact le_trans (List.length_filter_le _ _) (le_of_eq (List.length_map _ _))
  · intro r hr
    obtain ⟨hmem, hkeep⟩ := List.mem_filter.mp ((List.mem_insertionSort yearsLE).mp hr)
    obtain ⟨p, _, rfl⟩ := List.mem_map.mp hmem
    refine ⟨?_, rfl⟩
    intro hnan
    rw [keepRow] at hkeep
    simp [hnan] at hkeep

/-- C6 (witness): on a batch with one good and one unparseable row, the
output is shorter than the input and the surviving row's rate is not NaN. -/
theorem build_curve_drops_unparseable_witness :
    (build_curve [("1Y", "1"), ("2Y", "oops")]).length ≤ 2 ∧
      (⟨"1Y", "1", .fin 1, 1, 360⟩ : CleanRow).yieldNum ≠ .nan :=
  ⟨(build_curve_drops_unparseable [("1Y", "1"), ("2Y", "oops")]).1,
    ((build_curve_drops_unparseable [("1Y", "1"), ("2Y", "oops")]).2 _ (by decide)).1⟩

/-- C7: every point of a built curve has `days = ⌊years * 360⌋`, and for a
finite rate the discount factor is `exp(-(rate/100) * years)` exactly. -/
theorem build_curve_days_discount (rows : List (String × String)) :
    ∀ r ∈ build_curve rows, r.days = ⌊r.years * 360⌋ ∧
      ∀ p : ℚ, r.yieldNum = .fin p →
        discountFactor p r.years = Real.exp (-((p : ℝ) / 100) * (r.years : ℝ)) := by
  intro r hr
  obtain ⟨hmem, _⟩ := List.mem_filter.mp ((List.mem_insertionSort yearsLE).mp hr)
  obtain ⟨pp, _, rfl⟩ := List.mem_map.mp hmem
  refine ⟨?_, fun p _ => rfl⟩
  show astypeInt (ratScale (map_tenor pp.1) 360) = ⌊map_tenor pp.1 * 360⌋
  have h0 : (0 : ℚ) ≤ map_tenor pp.1 * ((360 : ℕ) : ℚ) :=
    mul_nonneg (map_tenor_nonneg _) (by norm_num)
  rw [ratScale_eq, astypeInt_of_nonneg _ h0]
  norm_num

/-- C7 (witness): the two clauses at the single-row batch ("1Y", "5"). -/
theorem build_curve_days_discount_witness :
    (⟨"1Y", "5", .fin 5, 1, 360⟩ : CleanRow).days =
        ⌊(⟨"1Y", "5", .fin 5, 1, 360⟩ : CleanRow).years * 360⌋ ∧
      discountFactor 5 (⟨"1Y", "5", .fin 5, 1, 360⟩ : CleanRow).years =
        Real.exp (-((5 : ℝ) / 100) * ((⟨"1Y", "5", .fin 5, 1, 360⟩ : CleanRow).years : ℝ)) := by
  have h := build_curve_days_discount [("1Y", "5")] ⟨"1Y", "5", .fin 5, 1, 360⟩ (by decide)
  exact ⟨h.1, h.2 5 (by decide)⟩

/-- C8 (counterexample): the yield text "inf" parses to positive infinity
and the row survives the drop step with a non-finite rate, contrary to the
claim that non-finite rows are dropped. -/
theorem build_curve_inf_survives_counterexample :
    (build_curve [("5Y", "inf")]).length = 1 ∧
      ((build_curve [("5Y", "inf")]).all fun r => r.yieldNum.isFinite) = false := by
  decide

/-- C8 (amended): every surviving row has nonnegative (finite) `years`, a
rate that is not NaN, and a non-NaN `exp` argument, so the days/discount
derivation never fails on it; a rate equal to ±infinity may survive. -/
theorem build_curve_survivors_not_nan (rows : List (String × String)) :
    ∀ r ∈ build_curve rows,
      0 ≤ r.years ∧ r.yieldNum ≠ .nan ∧ dfArg r.yieldNum r.years ≠ .nan := by
  intro r hr
  obtain ⟨hmem, hkeep⟩ := List.mem_filter.mp ((List.mem_insertionSort yearsLE).mp hr)
  obtain ⟨p, _, rfl⟩ := List.mem_map.mp hmem
  refine ⟨map_tenor_nonneg _, ?_, ?_⟩ <;>
  · intro h
    rw [keepRow] at hkeep
    simp [h] at hkeep

/-- C8 (witness): the amended clauses at the surviving row of
the single-row batch ("1Y", "5"). -/
theorem build_curve_survivors_not_nan_witness :
    0 ≤ (⟨"1Y", "5", .fin 5, 1, 360⟩ : CleanRow).years ∧
      (⟨"1Y", "5", .fin 5, 1, 360⟩ : CleanRow).yieldNum ≠ .nan ∧
      dfArg (⟨"1Y", "5", .fin 5, 1, 360⟩ : CleanRow).yieldNum
          (⟨"1Y", "5", .fin 5, 1, 360⟩ : CleanRow).years ≠ .nan :=
  build_curve_survivors_not_nan [("1Y", "5")] _ (by decide)

/-- C9: a well-formed table that has the required columns but no rows is
cleaned to the empty curve, with no error. -/
theorem clean_bond_df_empty (cols : List String)
    (hy : ∃ c ∈ cols, pyIn "Yield" c = true)
    (hm : ∃ c ∈ cols, pyIn "Maturity" c = true) :
    clean_bond_df ⟨cols, []⟩ = .ok [] := by
  obtain ⟨y, hy1, hy2⟩ := hy
  obtain ⟨m, hm1, hm2⟩ := hm
  rw [clean_bond_df]
  cases hYhead : (cols.filter fun c => pyIn "Yield" c).head? with
  | none =>
    rw [List.head?_eq_none_iff] at hYhead
    exact absurd (hYhead ▸ List.mem_filter.mpr ⟨hy1, hy2⟩) (List.not_mem_nil y)
  | some yc =>
    cases hMhead : (cols.filter fun c => pyIn "Maturity" c).head? with
    | none =>
      rw [List.head?_eq_none_iff] at hMhead
      exact absurd (hMhead ▸ List.mem_filter.mpr ⟨hm1, hm2⟩) (List.not_mem_nil m)
    | some mc => rfl

/-- C9 (witness): the empty table with columns "Maturity" and "Yield". -/
theorem clean_bond_df_empty_witness :
    clean_bond_df ⟨["Maturity", "Yield"], []⟩ = .ok [] :=
  clean_bond_df_empty ["Maturity", "Yield"]
    ⟨"Yield", by decide, by decide⟩ ⟨"Maturity", by decide, by decide⟩

/-- C10: when no column name contains "Yield" (or none contains
"Maturity"), `clean_bond_df` ends in the uncaught `IndexError`; and the
selected column is always the first matching one. -/
theorem clean_bond_df_missing_columns (df : RawDF) :
    ((∀ c ∈ df.cols, pyIn "Yield" c = false) → clean_bond_df df = .error .indexError) ∧
      ((∀ c ∈ df.cols, pyIn "Maturity" c = false) → clean_bond_df df = .error .indexError) ∧
      (df.cols.filter fun c => pyIn "Yield" c).head? =
        df.cols.find? (fun c => pyIn "Yield" c) ∧
      (df.cols.filter fun c => pyIn "Maturity" c).head? =
        df.cols.find? (fun c => pyIn "Maturity" c) := by
  refine ⟨?_, ?_, head?_filter_eq_find? _ _, head?_filter_eq_find? _ _⟩
  · intro h
    have hfil : (df.cols.filter fun c => pyIn "Yield" c) = [] := by
      rw [List.filter_eq_nil_iff]
      intro c hc
      rw [h c hc]
      exact Bool.false_ne_true
    rw [clean_bond_df, hfil]
    rfl
  · intro h
    have hfil : (df.cols.filter fun c => pyIn "Maturity" c) = [] := by
      rw [List.filter_eq_nil_iff]
      intro c hc
      rw [h c hc]
      exact Bool.false_ne_true
    rw [clean_bond_df]
    cases hYhead : (df.cols.filter fun c => pyIn "Yield" c).head? with
    | none => rfl
    | some yc => rw [hfil]; rfl

/-- C10 (witness): a table with no "Yield" column and a table with a
"Yield" column but no "Maturity" column both end in `IndexError`. -/
theorem clean_bond_df_missing_columns_witness :
    clean_bond_df ⟨["A", "B"], [["x", "y"]]⟩ = .error .indexError ∧
      clean_bond_df ⟨["Yield (%)"], []⟩ = .error .indexError :=
  ⟨(clean_bond_df_missing_columns ⟨["A", "B"], [["x", "y"]]⟩).1 (by decide),
    (clean_bond_df_missing_columns ⟨["Yield (%)"], []⟩).2.1 (by decide)⟩
